import Mathlib

/-!
Verification of `pronotepy/ent/generic_func.py`: shallow embedding of the
ENT login components and proofs about them.

Each Python component performs a fixed sequence of HTTP requests and
HTML-scraping steps.  The embedding models:
  * parsed HTML pages (`Page`, `FormTag`, `InputTag`) as consumed via
    BeautifulSoup `find` calls;
  * the HTTP layer as a pure `Transport` oracle mapping each request to a
    response; a component returns its result together with the ordered log
    of requests it issued;
  * Python runtime failures (`raise ENTLoginError`, `NameError`,
    `TypeError` from subscripting `None`, `KeyError` from a missing
    attribute, `AttributeError`) as an error type `PyError`, with
    components returning `Except PyError`.
All requests in the source carry the same module-level `HEADERS` constant,
so headers are omitted from the request model.
-/

namespace GenericFunc

/-- An HTML `input` element: its `name` attribute, its optional `value`
attribute and its optional `type` attribute (`some "hidden"` for hidden
inputs).  Subscripting a missing attribute in Python raises `KeyError`;
`tag.get` returns `None` instead, hence `Option` values. -/
structure InputTag where
  name : String
  value : Option String
  typ : Option String
  deriving Repr, DecidableEq

/-- An HTML `form` element: its attributes (such as `class` or `id`), its
optional `action` attribute and the `input` elements it contains, in
document order. -/
structure FormTag where
  attrs : List (String × String)
  action : Option String
  inputs : List InputTag
  deriving Repr, DecidableEq

/-- A top-level node of a parsed page: a loose `input` or a `form`. -/
inductive Node where
  | input (i : InputTag)
  | form (f : FormTag)
  deriving Repr, DecidableEq

/-- A parsed HTML page: its `title` text, if any, and its nodes in document
order.  This is what `BeautifulSoup(response.text, "html.parser")` yields,
restricted to what the components inspect. -/
structure Page where
  title : Option String
  nodes : List Node
  deriving Repr, DecidableEq

/-- All `input` elements of the page in document order, whether loose or
inside a form. -/
def Page.allInputs (p : Page) : List InputTag :=
  p.nodes.flatMap fun n =>
    match n with
    | .input i => [i]
    | .form f => f.inputs

/-- `soup.find("input", ...name...)`: the first input named `nm`, searching
the whole document. -/
def Page.findInput (p : Page) (nm : String) : Option InputTag :=
  p.allInputs.find? fun i => i.name == nm

/-- The page's `form` elements in document order. -/
def Page.forms (p : Page) : List FormTag :=
  p.nodes.filterMap fun n =>
    match n with
    | .form f => some f
    | .input _ => none

/-- `soup.find("form")`: the first form of the document. -/
def Page.findForm (p : Page) : Option FormTag :=
  p.forms.head?

/-- `soup.find("form", attrs)`: the first form whose attributes contain
every key/value pair of `attrs`. -/
def Page.findFormAttrs (p : Page) (attrs : List (String × String)) : Option FormTag :=
  p.forms.find? fun f => attrs.all fun kv => f.attrs.contains kv

/-- A Python `dict` with string keys and string-or-`None` values, as the
components build for request payloads: an association list in insertion
order with unique keys. -/
abbrev Payload := List (String × Option String)

/-- Python dict assignment `d[k] = v`: replaces the value at an existing
key in place, otherwise appends the new key at the end. -/
def dictSet : Payload → String → Option String → Payload
  | [], k, v => [(k, v)]
  | (k', v') :: rest, k, v =>
    if k' = k then (k, v) :: rest else (k', v') :: dictSet rest k v

/-- Python dict lookup: `some v` when the key is present with value `v`
(where `v` itself is `none` for a Python `None` value). -/
def dictGet (d : Payload) (k : String) : Option (Option String) :=
  (d.find? fun kv => kv.1 == k).map (·.2)

/-- HTTP method of a request. -/
inductive Method where
  | get
  | post
  deriving Repr, DecidableEq

/-- One HTTP request as issued by `session.get` / `session.post`: the
method, the target URL, the query parameters (the `params=` argument) and
the form data (the `data=` argument). -/
structure Request where
  method : Method
  url : String
  params : List (String × String)
  data : Payload
  deriving Repr, DecidableEq

/-- `session.get(url, params=params)` with empty body. -/
def getReq (url : String) (params : List (String × String)) : Request :=
  { method := .get, url := url, params := params, data := [] }

/-- `session.post(url, data=data)` with no query parameters. -/
def postReq (url : String) (data : Payload) : Request :=
  { method := .post, url := url, params := [], data := data }

/-- The response the HTTP layer hands back for one request: the final URL
after redirects (`response.url`), the parsed body (`response.text` fed to
BeautifulSoup) and the cookies the exchange set on the session. -/
structure HResponse where
  url : String
  page : Page
  setCookies : List (String × String)
  deriving Repr, DecidableEq

/-- The network, as a pure oracle: what response each request receives.
Quantifying theorems over `Transport` captures "for every sequence of
server responses". -/
abbrev Transport := Request → HResponse

/-- A cookie jar: cookie names to values. -/
abbrev Jar := List (String × String)

/-- Merge newly set cookies into a jar, newer values overriding. -/
def updateJar (jar : Jar) (sc : List (String × String)) : Jar :=
  sc.foldl
    (fun j kv =>
      if j.any (fun e => e.1 == kv.1) then
        j.map fun e => if e.1 == kv.1 then kv else e
      else j ++ [kv])
    jar

/-- A `requests.Session`: its cookie jar.  A fresh session has no cookies. -/
structure Session where
  cookies : Jar
  deriving Repr, DecidableEq

/-- Perform one request on a session: consult the transport and fold the
set cookies into the session's jar. -/
def Session.doRequest (s : Session) (t : Transport) (r : Request) : Session × HResponse :=
  let resp := t r
  ({ cookies := updateJar s.cookies resp.setCookies }, resp)

/-- The Python exceptions the module can raise: `ENTLoginError` (from
`pronotepy.exceptions`), `NameError` for an undefined name, `TypeError`
for subscripting `None`, `KeyError` for a missing attribute subscript,
and `AttributeError` for a missing attribute access. -/
inductive PyError where
  | entLoginError (msg : String)
  | nameError (nm : String)
  | typeError (msg : String)
  | keyError (k : String)
  | attributeError (msg : String)
  deriving Repr, DecidableEq

/-- Whether an error is a lookup/parse failure (as opposed to the module's
own `ENTLoginError`): `TypeError`, `KeyError` or `AttributeError` raised
while scraping a page. -/
def PyError.isLookupFailure : PyError → Bool
  | .typeError _ => true
  | .keyError _ => true
  | .attributeError _ => true
  | .entLoginError _ => false
  | .nameError _ => false

/-- Result of a component run: the returned value or the raised error,
together with the ordered log of HTTP requests issued. -/
abbrev Run (α : Type) := Except PyError α × List Request

/-- Prefix check on character lists. -/
def charsStart : List Char → List Char → Bool
  | [], _ => true
  | _ :: _, [] => false
  | a :: as, b :: bs => a == b && charsStart as bs

/-- Substring check on character lists. -/
def charsSub (needle : List Char) : List Char → Bool
  | [] => needle.isEmpty
  | c :: cs => charsStart needle (c :: cs) || charsSub needle cs

/-- Python's `needle in hay` on strings: substring containment. -/
def pyIn (needle hay : String) : Bool :=
  charsSub needle.data hay.data

/-- Take characters up to the first `/`, `?` or `#`. -/
def netlocTake : List Char → List Char
  | [] => []
  | c :: cs => if c == '/' || c == '?' || c == '#' then [] else c :: netlocTake cs

/-- Scan for the `://` scheme separator; on finding it, the netloc is what
follows, up to the first `/`, `?` or `#`. -/
def netlocGo : List Char → List Char
  | [] => []
  | c :: cs =>
    if c == ':' then
      match cs with
      | c1 :: c2 :: r => if c1 == '/' && c2 == '/' then netlocTake r else []
      | _ => []
    else if c == '/' then []
    else netlocGo cs

/-- Models `urllib.parse.urlparse(url).netloc`: the host part of a URL of
the shape `scheme://host/...` or `//host/...`, empty otherwise. -/
def urlparse_netloc (url : String) : String :=
  match url.data with
  | c1 :: c2 :: r =>
    if c1 == '/' && c2 == '/' then String.mk (netlocTake r)
    else String.mk (netlocGo url.data)
  | _ => String.mk (netlocGo url.data)

/-- Shallow embedding of `_educonnect` (generic_func.py, lines 19-60).
Given an existing session, posts the credentials to `url`; if the response
page has an input named `SAMLResponse`, posts its value (plus the
`RelayState` input's value when that input is present) to the first form's
`action` URL and returns that second response; otherwise returns `none`
(the Python `return` with no value).  Rendered errors: empty `url` raises
`ENTLoginError`; `input["value"]` on an input with no `value` attribute
raises `KeyError`; `soup.find("form")` yielding `None` makes
`None["action"]` raise `TypeError`; a form without `action` raises
`KeyError`. -/
def _educonnect (t : Transport) (session : Session) (username password url : String) :
    Run (Option HResponse × Session) :=
  if url = "" then (.error (.entLoginError "Missing url attribute"), [])
  else
    let payload : Payload :=
      [("j_username", some username), ("j_password", some password),
        ("_eventId_proceed", some "")]
    let req1 := postReq url payload
    let (s1, response) := session.doRequest t req1
    let soup := response.page
    match soup.findInput "SAMLResponse" with
    | none => (.ok (none, s1), [req1])
    | some inputSAMLResponse =>
      match inputSAMLResponse.value with
      | none => (.error (.keyError "value"), [req1])
      | some v =>
        let payload2 : Except PyError Payload :=
          match soup.findInput "RelayState" with
          | none => .ok [("SAMLResponse", some v)]
          | some inputRelayState =>
            match inputRelayState.value with
            | none => .error (.keyError "value")
            | some w => .ok [("SAMLResponse", some v), ("RelayState", some w)]
        match payload2 with
        | .error e => (.error e, [req1])
        | .ok p2 =>
          match soup.findForm with
          | none => (.error (.typeError "NoneType object is not subscriptable"), [req1])
          | some form =>
            match form.action with
            | none => (.error (.keyError "action"), [req1])
            | some action =>
              let req2 := postReq action p2
              let (s2, response2) := s1.doRequest t req2
              (.ok (some response2, s2), [req1, req2])

/-- Shallow embedding of `_cas_edu` (lines 63-102).  Fetches the login
page, reads the `RelayState` and `SAMLRequest` inputs, posts them to the
first form's `action` URL — and then, at line 100, evaluates the name
`educonnect`.  The module defines `_educonnect` but no name `educonnect`,
and no import in the source file provides one, so Python raises
`NameError` there and the cookies are never returned. -/
def _cas_edu (t : Transport) (username password url : String) : Run Jar :=
  if url = "" then (.error (.entLoginError "Missing url attribute"), [])
  else
    let session : Session := ⟨[]⟩
    let req1 := getReq url []
    let (s1, response) := session.doRequest t req1
    let soup := response.page
    match soup.findInput "RelayState" with
    | none => (.error (.typeError "NoneType object is not subscriptable"), [req1])
    | some inputRelay =>
      match inputRelay.value with
      | none => (.error (.keyError "value"), [req1])
      | some relayVal =>
        match soup.findInput "SAMLRequest" with
        | none => (.error (.typeError "NoneType object is not subscriptable"), [req1])
        | some inputSaml =>
          match inputSaml.value with
          | none => (.error (.keyError "value"), [req1])
          | some samlVal =>
            let payload : Payload :=
              [("RelayState", some relayVal), ("SAMLRequest", some samlVal)]
            match soup.findForm with
            | none => (.error (.typeError "NoneType object is not subscriptable"), [req1])
            | some form =>
              match form.action with
              | none => (.error (.keyError "action"), [req1])
              | some action =>
                let req2 := postReq action payload
                let (_, _) := s1.doRequest t req2
                (.error (.nameError "educonnect"), [req1, req2])

/-- Shallow embedding of `_cas` (lines 105-144).  Fetches the login page,
locates the form with class `cas__login-form` (an absent form makes
`form.findAll` raise `AttributeError`), copies every input's name/value
into the payload, overlays `username` and `password`, posts the payload to
`response.url` (the GET's final URL) and returns the session cookies. -/
def _cas (t : Transport) (username password url : String) : Run Jar :=
  if url = "" then (.error (.entLoginError "Missing url attribute"), [])
  else
    let session : Session := ⟨[]⟩
    let req1 := getReq url []
    let (s1, response) := session.doRequest t req1
    match response.page.findFormAttrs [("class", "cas__login-form")] with
    | none => (.error (.attributeError "NoneType object has no attribute findAll"), [req1])
    | some form =>
      let payload := form.inputs.foldl (fun d i => dictSet d i.name i.value) []
      let payload := dictSet payload "username" (some username)
      let payload := dictSet payload "password" (some password)
      let req2 := postReq response.url payload
      let (s2, _) := s1.doRequest t req2
      (.ok s2.cookies, [req1, req2])

/-- Shallow embedding of `_open_ent_ng_edu` (lines 147-191).  Requests
EduConnect's unsolicited SSO endpoint with the `providerId` parameter
derived from `domain` — and then, at line 182, evaluates the name
`educonnect`.  As in `_cas_edu`, the module defines `_educonnect` but no
name `educonnect`, so Python raises `NameError` there; neither the
fallback (`open_ent_ng`, likewise undefined — the module defines
`_open_ent_ng`) nor the cookie return is ever reached. -/
def _open_ent_ng_edu (t : Transport) (username password domain : String) : Run Jar :=
  if domain = "" then (.error (.entLoginError "Missing domain attribute"), [])
  else
    let ent_login_page :=
      "https://educonnect.education.gouv.fr/idp/profile/SAML2/Unsolicited/SSO"
    let session : Session := ⟨[]⟩
    let params := [("providerId", domain ++ "/auth/saml/metadata/idp.xml")]
    let req1 := getReq ent_login_page params
    let (_, _) := session.doRequest t req1
    (.error (.nameError "educonnect"), [req1])

/-- Shallow embedding of `_open_ent_ng` (lines 194-224).  A single POST of
`email`/`password` to `url`; returns the session cookies with no look at
the response. -/
def _open_ent_ng (t : Transport) (username password url : String) : Run Jar :=
  if url = "" then (.error (.entLoginError "Missing url attribute"), [])
  else
    let session : Session := ⟨[]⟩
    let payload : Payload := [("email", some username), ("password", some password)]
    let req1 := postReq url payload
    let (s1, _) := session.doRequest t req1
    (.ok s1.cookies, [req1])

/-- Shallow embedding of `_wayf` (lines 227-280).  Defaults `entityID` to
`domain ++ "/shibboleth"` and `returnX` to
`domain ++ "/Shibboleth.sso/Login"` when empty, requests the discovery
endpoint `domain ++ "/discovery/WAYF"` with the fixed set of query
parameters (including the fixed `origin` parameter) — and then, at line 278, calls
`_educonnect(response.url, session, username, password)` against the
parameter list `(session, username, password, url)`.  Inside the callee
`url` is therefore bound to the password and `session` to the string
`response.url`: when the password is empty the first statement raises
`ENTLoginError("Missing url attribute")`; otherwise `session.post` is
attribute access on a string and raises `AttributeError` before any
further request.  The cookies are never returned. -/
def _wayf (t : Transport) (username password domain entityID returnX : String) : Run Jar :=
  if domain = "" then (.error (.entLoginError "Missing domain attribute"), [])
  else
    let entityID := if entityID = "" then domain ++ "/shibboleth" else entityID
    let returnX := if returnX = "" then domain ++ "/Shibboleth.sso/Login" else returnX
    let ent_login_page := domain ++ "/discovery/WAYF"
    let session : Session := ⟨[]⟩
    let params :=
      [("entityID", entityID), ("returnX", returnX), ("returnIDParam", "entityID"),
        ("action", "selection"), ("origin", "https://_educonnect.education.gouv.fr/idp")]
    let req1 := getReq ent_login_page params
    let (_, _) := session.doRequest t req1
    if password = "" then (.error (.entLoginError "Missing url attribute"), [req1])
    else (.error (.attributeError "str object has no attribute post"), [req1])

/-- Shallow embedding of `_oze_ent` (lines 283-327).  Fetches the login
page, derives the domain from the URL's host, suffixes the username with
`@domain` unless the domain already occurs in it, locates the form with id
`auth_form`, copies its inputs, overlays the (possibly suffixed) username
and the password, posts to `response.url` and returns the cookies. -/
def _oze_ent (t : Transport) (username password url : String) : Run Jar :=
  if url = "" then (.error (.entLoginError "Missing url attribute"), [])
  else
    let session : Session := ⟨[]⟩
    let req1 := getReq url []
    let (s1, response) := session.doRequest t req1
    let domain := urlparse_netloc url
    let username := if pyIn domain username then username else username ++ "@" ++ domain
    match response.page.findFormAttrs [("id", "auth_form")] with
    | none => (.error (.attributeError "NoneType object has no attribute findAll"), [req1])
    | some form =>
      let payload := form.inputs.foldl (fun d i => dictSet d i.name i.value) []
      let payload := dictSet payload "username" (some username)
      let payload := dictSet payload "password" (some password)
      let req2 := postReq response.url payload
      let (s2, _) := s1.doRequest t req2
      (.ok s2.cookies, [req1, req2])

/-- Shallow embedding of `_simple_auth` (lines 330-370).  Like `_cas` but
the form is located by the caller-supplied attribute filter `form_attr`,
and no username transformation occurs. -/
def _simple_auth (t : Transport) (username password url : String)
    (form_attr : List (String × String)) : Run Jar :=
  if url = "" then (.error (.entLoginError "Missing url attribute"), [])
  else
    let session : Session := ⟨[]⟩
    let req1 := getReq url []
    let (s1, response) := session.doRequest t req1
    match response.page.findFormAttrs form_attr with
    | none => (.error (.attributeError "NoneType object has no attribute findAll"), [req1])
    | some form =>
      let payload := form.inputs.foldl (fun d i => dictSet d i.name i.value) []
      let payload := dictSet payload "username" (some username)
      let payload := dictSet payload "password" (some password)
      let req2 := postReq response.url payload
      let (s2, _) := s1.doRequest t req2
      (.ok s2.cookies, [req1, req2])

/-- A page with no nodes at all: no forms, no inputs, no title. -/
def emptyPage : Page :=
  { title := none, nodes := [] }

/-- A transport answering every request with an empty page. -/
def emptyT : Transport := fun _ =>
  { url := "https://resp.example/after", page := emptyPage, setCookies := [("sid", "s0")] }

/-- The input carrying the SAML assertion in `samlPage`. -/
def srInput : InputTag :=
  { name := "SAMLResponse", value := some "SR1", typ := some "hidden" }

/-- The input carrying the relay state in `samlPage`. -/
def rsInput : InputTag :=
  { name := "RelayState", value := some "RS1", typ := some "hidden" }

/-- The service-provider form of `samlPage`. -/
def spForm : FormTag :=
  { attrs := [], action := some "https://sp.example/acs", inputs := [srInput, rsInput] }

/-- A page as EduConnect serves after a successful credential POST: a
`SAMLResponse` input, a `RelayState` input and a form carrying the
service provider's `action` URL. -/
def samlPage : Page :=
  { title := some "Redirection", nodes := [.form spForm] }

/-- A transport answering every request with `samlPage`. -/
def samlT : Transport := fun _ =>
  { url := "https://idp.example/after", page := samlPage, setCookies := [("idp", "c1")] }

/-- A malformed SAML page: a loose `SAMLResponse` input but no form. -/
def samlNoFormPage : Page :=
  { title := none
    nodes := [.input { name := "SAMLResponse", value := some "SR1", typ := some "hidden" }] }

/-- A transport answering every request with `samlNoFormPage`. -/
def samlNoFormT : Transport := fun _ =>
  { url := "https://idp.example/after", page := samlNoFormPage, setCookies := [] }

/-- A SAML form without a `RelayState` input. -/
def noRelayForm : FormTag :=
  { attrs := []
    action := some "https://sp.example/acs2"
    inputs := [{ name := "SAMLResponse", value := some "SR2", typ := some "hidden" }] }

/-- A page carrying only `noRelayForm`. -/
def noRelayPage : Page :=
  { title := none, nodes := [.form noRelayForm] }

/-- A transport answering every request with `noRelayPage`. -/
def noRelayT : Transport := fun _ =>
  { url := "https://idp.example/after2", page := noRelayPage, setCookies := [] }

/-- An ENT login page as `_cas_edu` expects: `RelayState` and `SAMLRequest`
inputs and a form pointing at the identity provider. -/
def casEduPage : Page :=
  { title := some "ENT"
    nodes :=
      [.input { name := "RelayState", value := some "RS1", typ := some "hidden" },
        .input { name := "SAMLRequest", value := some "SQ1", typ := some "hidden" },
        .form { attrs := [], action := some "https://idp.example/sso", inputs := [] }] }

/-- A transport answering every request with `casEduPage`. -/
def casEduT : Transport := fun _ =>
  { url := "https://ent.example.fr/cas", page := casEduPage, setCookies := [("JSESSIONID", "j1")] }

/-- The CAS login form used in concrete instantiations. -/
def casForm : FormTag :=
  { attrs := [("class", "cas__login-form")]
    action := some "https://cas.example/declared-action"
    inputs :=
      [{ name := "lt", value := some "LT-77", typ := some "hidden" },
        { name := "execution", value := some "e1s1", typ := some "hidden" },
        { name := "submitBtn", value := some "LOGIN", typ := some "submit" }] }

/-- A simple-form login form located by id, used in concrete instantiations. -/
def idForm : FormTag :=
  { attrs := [("id", "loginForm")]
    action := some "https://simple.example/declared-action"
    inputs := [{ name := "csrf", value := some "tok-9", typ := some "hidden" }] }

/-- A page carrying both `casForm` and `idForm`. -/
def casPage : Page :=
  { title := some "Login", nodes := [.form casForm, .form idForm] }

/-- A transport answering every request with `casPage`, whose final URL
after redirects differs from both forms' declared `action` URLs. -/
def casT : Transport := fun _ =>
  { url := "https://final.example/login", page := casPage, setCookies := [("cas", "c2")] }

/-- The Oze login form (id `auth_form`) used in concrete instantiations. -/
def ozeForm : FormTag :=
  { attrs := [("id", "auth_form")]
    action := some "https://oze.example.com/declared-action"
    inputs := [{ name := "csrf", value := some "z1", typ := some "hidden" }] }

/-- A page carrying `ozeForm`. -/
def ozePage : Page :=
  { title := some "Oze", nodes := [.form ozeForm] }

/-- A transport answering every request with `ozePage`. -/
def ozeT : Transport := fun _ =>
  { url := "https://oze.example.com/login", page := ozePage, setCookies := [("oze", "c3")] }

/-- The EduConnect unsolicited-SSO endpoint hard-coded in
`_open_ent_ng_edu`. -/
def ssoUrl : String :=
  "https://educonnect.education.gouv.fr/idp/profile/SAML2/Unsolicited/SSO"

/-- The credential payload `_educonnect` posts first (line 45 of the
source). -/
def eduPayload (username password : String) : Payload :=
  [("j_username", some username), ("j_password", some password),
    ("_eventId_proceed", some "")]

/-- The payload-building loop of `_cas`, `_oze_ent` and `_simple_auth`:
`for input_ in form.findAll("input"): payload[input_["name"]] = input_.get("value")`. -/
def buildPayload (inputs : List InputTag) (d : Payload) : Payload :=
  inputs.foldl (fun d i => dictSet d i.name i.value) d

/-- The full payload those components submit: every form input's
name/value pair, then `username` and `password` overlaid. -/
def overlayPayload (f : FormTag) (username password : String) : Payload :=
  dictSet (dictSet (buildPayload f.inputs []) "username" (some username))
    "password" (some password)

theorem dictGet_nil (k : String) : dictGet [] k = none := rfl

theorem dictGet_cons (k' : String) (v' : Option String) (rest : Payload) (k : String) :
    dictGet ((k', v') :: rest) k = if k' = k then some v' else dictGet rest k := by
  by_cases h : k' = k
  · subst h
    rw [if_pos rfl]
    simp only [dictGet]
    rw [List.find?_cons_of_pos _ (by simp)]
    rfl
  · rw [if_neg h]
    simp only [dictGet]
    rw [List.find?_cons_of_neg _ (by simp [h])]

theorem dictGet_dictSet (d : Payload) (k k2 : String) (v : Option String) :
    dictGet (dictSet d k v) k2 = if k2 = k then some v else dictGet d k2 := by
  induction d with
  | nil =>
    simp only [dictSet]
    rw [dictGet_cons, dictGet_nil]
    by_cases h : k2 = k
    · rw [if_pos h.symm, if_pos h]
    · rw [if_neg fun hh => h hh.symm, if_neg h]
  | cons kv rest ih =>
    obtain ⟨k', v'⟩ := kv
    simp only [dictSet]
    by_cases hk : k' = k
    · subst hk
      rw [if_pos rfl, dictGet_cons, dictGet_cons]
      by_cases h2 : k2 = k'
      · rw [if_pos h2.symm, if_pos h2]
      · rw [if_neg fun hh => h2 hh.symm, if_neg h2, if_neg fun hh => h2 hh.symm]
    · rw [if_neg hk, dictGet_cons, dictGet_cons, ih]
      by_cases h2 : k' = k2
      · have hk2 : ¬k2 = k := fun hh => hk (h2.trans hh)
        rw [if_pos h2, if_neg hk2, if_pos h2]
      · rw [if_neg h2, if_neg h2]

theorem dictGet_dictSet_isSome (d : Payload) (k k2 : String) (v : Option String)
    (h : (dictGet (dictSet d k v) k2).isSome = true) :
    k2 = k ∨ (dictGet d k2).isSome = true := by
  rw [dictGet_dictSet] at h
  by_cases hk : k2 = k
  · exact Or.inl hk
  · rw [if_neg hk] at h
    exact Or.inr h

theorem buildPayload_nil (d : Payload) : buildPayload [] d = d := rfl

theorem buildPayload_cons (i : InputTag) (rest : List InputTag) (d : Payload) :
    buildPayload (i :: rest) d = buildPayload rest (dictSet d i.name i.value) := rfl

theorem dictGet_buildPayload_of_not_mem (inputs : List InputTag) (d : Payload) (k : String)
    (h : ∀ i ∈ inputs, i.name ≠ k) :
    dictGet (buildPayload inputs d) k = dictGet d k := by
  induction inputs generalizing d with
  | nil => rfl
  | cons j rest ih =>
    rw [buildPayload_cons, ih _ fun i hi => h i (List.mem_cons_of_mem _ hi)]
    rw [dictGet_dictSet, if_neg fun hk => h j (List.mem_cons_self _ _) hk.symm]

theorem dictGet_buildPayload_mem (inputs : List InputTag) (d : Payload) (i : InputTag)
    (hmem : i ∈ inputs) (hnd : (inputs.map InputTag.name).Nodup) :
    dictGet (buildPayload inputs d) i.name = some i.value := by
  induction inputs generalizing d with
  | nil => cases hmem
  | cons j rest ih =>
    simp only [List.map_cons, List.nodup_cons] at hnd
    rcases List.mem_cons.mp hmem with rfl | hmem2
    · rw [buildPayload_cons]
      rw [dictGet_buildPayload_of_not_mem rest _ i.name
        fun x hx hxname => hnd.1 (hxname ▸ List.mem_map_of_mem _ hx)]
      rw [dictGet_dictSet, if_pos rfl]
    · exact ih _ hmem2 hnd.2

theorem dictGet_buildPayload_isSome (inputs : List InputTag) (d : Payload) (k : String)
    (h : (dictGet (buildPayload inputs d) k).isSome = true) :
    k ∈ inputs.map InputTag.name ∨ (dictGet d k).isSome = true := by
  induction inputs generalizing d with
  | nil => exact Or.inr h
  | cons j rest ih =>
    rw [buildPayload_cons] at h
    rcases ih _ h with hk | hk
    · exact Or.inl (List.mem_cons_of_mem _ hk)
    · rcases dictGet_dictSet_isSome _ _ _ _ hk with rfl | hk2
      · exact Or.inl (List.mem_cons_self _ _)
      · exact Or.inr hk2

theorem educonnect_run_none (t : Transport) (s : Session) (u p url : String)
    (hurl : url ≠ "")
    (hs : (t (postReq url (eduPayload u p))).page.findInput "SAMLResponse" = none) :
    _educonnect t s u p url =
      (.ok (none, ⟨updateJar s.cookies (t (postReq url (eduPayload u p))).setCookies⟩),
        [postReq url (eduPayload u p)]) := by
  unfold _educonnect
  rw [if_neg hurl]
  simp only [eduPayload] at hs ⊢
  simp only [Session.doRequest]
  rw [hs]

theorem educonnect_run_relay_no_rs (t : Transport) (s : Session) (u p url : String)
    (i : InputTag) (v : String) (f : FormTag) (a : String)
    (hurl : url ≠ "")
    (hi : (t (postReq url (eduPayload u p))).page.findInput "SAMLResponse" = some i)
    (hv : i.value = some v)
    (hr : (t (postReq url (eduPayload u p))).page.findInput "RelayState" = none)
    (hf : (t (postReq url (eduPayload u p))).page.findForm = some f)
    (ha : f.action = some a) :
    _educonnect t s u p url =
      (.ok (some (t (postReq a [("SAMLResponse", some v)])),
          ⟨updateJar (updateJar s.cookies (t (postReq url (eduPayload u p))).setCookies)
            (t (postReq a [("SAMLResponse", some v)])).setCookies⟩),
        [postReq url (eduPayload u p), postReq a [("SAMLResponse", some v)]]) := by
  unfold _educonnect
  rw [if_neg hurl]
  simp only [eduPayload] at hi hr hf ⊢
  simp only [Session.doRequest]
  simp only [hi, hv, hr, hf, ha]

theorem educonnect_run_relay_rs (t : Transport) (s : Session) (u p url : String)
    (i : InputTag) (v : String) (r : InputTag) (w : String) (f : FormTag) (a : String)
    (hurl : url ≠ "")
    (hi : (t (postReq url (eduPayload u p))).page.findInput "SAMLResponse" = some i)
    (hv : i.value = some v)
    (hr : (t (postReq url (eduPayload u p))).page.findInput "RelayState" = some r)
    (hw : r.value = some w)
    (hf : (t (postReq url (eduPayload u p))).page.findForm = some f)
    (ha : f.action = some a) :
    _educonnect t s u p url =
      (.ok (some (t (postReq a [("SAMLResponse", some v), ("RelayState", some w)])),
          ⟨updateJar (updateJar s.cookies (t (postReq url (eduPayload u p))).setCookies)
            (t (postReq a [("SAMLResponse", some v), ("RelayState", some w)])).setCookies⟩),
        [postReq url (eduPayload u p),
          postReq a [("SAMLResponse", some v), ("RelayState", some w)]]) := by
  unfold _educonnect
  rw [if_neg hurl]
  simp only [eduPayload] at hi hr hf ⊢
  simp only [Session.doRequest]
  simp only [hi, hv, hr, hw, hf, ha]

theorem cas_run (t : Transport) (u p url : String) (f : FormTag)
    (hurl : url ≠ "")
    (hf : (t (getReq url [])).page.findFormAttrs [("class", "cas__login-form")] = some f) :
    _cas t u p url =
      (.ok (updateJar (updateJar [] (t (getReq url [])).setCookies)
          (t (postReq (t (getReq url [])).url (overlayPayload f u p))).setCookies),
        [getReq url [], postReq (t (getReq url [])).url (overlayPayload f u p)]) := by
  unfold _cas
  rw [if_neg hurl]
  simp only [overlayPayload, buildPayload] at hf ⊢
  simp only [Session.doRequest]
  rw [hf]

theorem oze_run (t : Transport) (u p url : String) (f : FormTag)
    (hurl : url ≠ "")
    (hf : (t (getReq url [])).page.findFormAttrs [("id", "auth_form")] = some f) :
    _oze_ent t u p url =
      (.ok (updateJar (updateJar [] (t (getReq url [])).setCookies)
          (t (postReq (t (getReq url [])).url
            (overlayPayload f
              (if pyIn (urlparse_netloc url) u then u else u ++ "@" ++ urlparse_netloc url)
              p))).setCookies),
        [getReq url [],
          postReq (t (getReq url [])).url
            (overlayPayload f
              (if pyIn (urlparse_netloc url) u then u else u ++ "@" ++ urlparse_netloc url)
              p)]) := by
  unfold _oze_ent
  rw [if_neg hurl]
  simp only [overlayPayload, buildPayload] at hf ⊢
  simp only [Session.doRequest]
  rw [hf]

theorem simple_auth_run (t : Transport) (u p url : String)
    (fa : List (String × String)) (f : FormTag)
    (hurl : url ≠ "")
    (hf : (t (getReq url [])).page.findFormAttrs fa = some f) :
    _simple_auth t u p url fa =
      (.ok (updateJar (updateJar [] (t (getReq url [])).setCookies)
          (t (postReq (t (getReq url [])).url (overlayPayload f u p))).setCookies),
        [getReq url [], postReq (t (getReq url [])).url (overlayPayload f u p)]) := by
  unfold _simple_auth
  rw [if_neg hurl]
  simp only [overlayPayload, buildPayload] at hf ⊢
  simp only [Session.doRequest]
  rw [hf]

/-- C4: every component rejects an empty required `url`/`domain` argument
by raising `ENTLoginError` before any network request: the error result
comes with an empty request log. -/
theorem empty_target_rejected_before_network :
    ∀ (t : Transport) (s : Session) (u p eID rX : String) (fa : List (String × String)),
      _educonnect t s u p "" = (.error (.entLoginError "Missing url attribute"), []) ∧
      _cas_edu t u p "" = (.error (.entLoginError "Missing url attribute"), []) ∧
      _cas t u p "" = (.error (.entLoginError "Missing url attribute"), []) ∧
      _open_ent_ng_edu t u p "" = (.error (.entLoginError "Missing domain attribute"), []) ∧
      _open_ent_ng t u p "" = (.error (.entLoginError "Missing url attribute"), []) ∧
      _wayf t u p "" eID rX = (.error (.entLoginError "Missing domain attribute"), []) ∧
      _oze_ent t u p "" = (.error (.entLoginError "Missing url attribute"), []) ∧
      _simple_auth t u p "" fa = (.error (.entLoginError "Missing url attribute"), []) := by
  intros
  exact ⟨rfl, rfl, rfl, rfl, rfl, rfl, rfl, rfl⟩

/-- C9: for every transport and non-empty `url`, `_open_ent_ng` issues
exactly one POST, whose payload maps `email` to the username and
`password` to the password, to the given URL, and returns the session's
cookie jar unconditionally, whatever the response was. -/
theorem open_ent_ng_single_post (t : Transport) (u p url : String) (hurl : url ≠ "") :
    _open_ent_ng t u p url =
      (.ok (updateJar [] (t (postReq url [("email", some u), ("password", some p)])).setCookies),
        [postReq url [("email", some u), ("password", some p)]]) := by
  unfold _open_ent_ng
  rw [if_neg hurl]
  rfl

/-- Witness for C9 at a concrete transport and concrete credentials. -/
theorem open_ent_ng_single_post_witness :
    _open_ent_ng emptyT "alice" "pw" "https://ent.example.fr/auth/login" =
      (.ok
        (updateJar []
          (emptyT
            (postReq "https://ent.example.fr/auth/login"
              [("email", some "alice"), ("password", some "pw")])).setCookies),
        [postReq "https://ent.example.fr/auth/login"
          [("email", some "alice"), ("password", some "pw")]]) :=
  open_ent_ng_single_post emptyT "alice" "pw" "https://ent.example.fr/auth/login" (by decide)

/-- C1 (failing run): with a well-behaved transport, non-empty domain and
concrete credentials, `_open_ent_ng_edu` raises `NameError` on the
undefined name `educonnect` right after its single SSO GET — it neither
reaches the EduConnect relay, nor the fallback, nor the cookie return. -/
theorem open_ent_ng_edu_nameerror_bug :
    _open_ent_ng_edu samlT "alice" "pw" "https://ent.example.fr" =
      (.error (.nameError "educonnect"),
        [getReq ssoUrl [("providerId", "https://ent.example.fr/auth/saml/metadata/idp.xml")]]) :=
  rfl

/-- C2 (failing run): with a transport serving a well-formed ENT page
(`RelayState`, `SAMLRequest`, form with action), `_cas_edu` performs the
GET and the SAML POST and then raises `NameError` on the undefined name
`educonnect` at line 100 — the cookies are never returned. -/
theorem cas_edu_nameerror_bug :
    _cas_edu casEduT "alice" "pw" "https://ent.example.fr/login" =
      (.error (.nameError "educonnect"),
        [getReq "https://ent.example.fr/login" [],
          postReq "https://idp.example/sso"
            [("RelayState", some "RS1"), ("SAMLRequest", some "SQ1")]]) :=
  rfl

/-- C3 (failing run): with a well-behaved transport, non-empty domain and
non-empty password, `_wayf` performs the discovery GET with the defaulted
`entityID`/`returnX` and the fixed `origin` parameter, but then calls
`_educonnect(response.url, session, username, password)` against the
parameter list `(session, username, password, url)`, so it raises
`AttributeError` (a string has no `post` method) instead of performing the
relay and returning cookies. -/
theorem wayf_swapped_args_bug :
    _wayf samlT "alice" "pw" "https://ent.example.fr" "" "" =
      (.error (.attributeError "str object has no attribute post"),
        [getReq "https://ent.example.fr/discovery/WAYF"
          [("entityID", "https://ent.example.fr/shibboleth"),
            ("returnX", "https://ent.example.fr/Shibboleth.sso/Login"),
            ("returnIDParam", "entityID"), ("action", "selection"),
            ("origin", "https://_educonnect.education.gouv.fr/idp")]]) :=
  rfl

/-- C5: the EduConnect relay, for every transport, session, credentials
and non-empty url: after the credential POST, if the response page has no
`SAMLResponse` input, the relay issues no further request and returns
nothing; if it has one (carrying a value) and the page's first form
declares an `action` URL, the relay issues exactly one follow-up POST to
that action URL carrying the `SAMLResponse` value — plus the `RelayState`
input's value when such an input is present. -/
theorem educonnect_relay_behaviour (t : Transport) (s : Session) (u p url : String)
    (hurl : url ≠ "") :
    ((t (postReq url (eduPayload u p))).page.findInput "SAMLResponse" = none →
      _educonnect t s u p url =
        (.ok (none, ⟨updateJar s.cookies (t (postReq url (eduPayload u p))).setCookies⟩),
          [postReq url (eduPayload u p)])) ∧
    (∀ i v f a,
      (t (postReq url (eduPayload u p))).page.findInput "SAMLResponse" = some i →
      i.value = some v →
      (t (postReq url (eduPayload u p))).page.findForm = some f →
      f.action = some a →
      ((t (postReq url (eduPayload u p))).page.findInput "RelayState" = none →
        (_educonnect t s u p url).2 =
          [postReq url (eduPayload u p), postReq a [("SAMLResponse", some v)]]) ∧
      (∀ r w,
        (t (postReq url (eduPayload u p))).page.findInput "RelayState" = some r →
        r.value = some w →
        (_educonnect t s u p url).2 =
          [postReq url (eduPayload u p),
            postReq a [("SAMLResponse", some v), ("RelayState", some w)]])) := by
  constructor
  · intro hs
    exact educonnect_run_none t s u p url hurl hs
  · intro i v f a hi hv hf ha
    constructor
    · intro hr
      rw [educonnect_run_relay_no_rs t s u p url i v f a hurl hi hv hr hf ha]
    · intro r w hr hw
      rw [educonnect_run_relay_rs t s u p url i v r w f a hurl hi hv hr hw hf ha]

/-- Witness for C5: with a transport serving `samlPage`, the relay's
request log is the credential POST followed by exactly one POST to the
form's action URL carrying the `SAMLResponse` and `RelayState` values. -/
theorem educonnect_relay_behaviour_witness :
    (_educonnect samlT ⟨[]⟩ "u" "p" "https://edu.example/login").2 =
      [postReq "https://edu.example/login" (eduPayload "u" "p"),
        postReq "https://sp.example/acs"
          [("SAMLResponse", some "SR1"), ("RelayState", some "RS1")]] :=
  ((educonnect_relay_behaviour samlT ⟨[]⟩ "u" "p" "https://edu.example/login"
      (by decide)).2 srInput "SR1" spForm "https://sp.example/acs"
      (by decide) (by decide) (by decide) (by decide)).2 rsInput "RS1"
      (by decide) (by decide)

/-- C6: in `_oze_ent`, with username `"alice"` and url
`"https://oze.example.com/login"`, the submitted payload's `username`
field equals `"alice@oze.example.com"`; in general the domain derived
from the URL host is appended after an `@` when it does not occur in the
username, and a username already containing the domain is left unchanged
in the payload. -/
theorem oze_username_suffix :
    (∀ (t : Transport) (p : String) (f : FormTag),
      (t (getReq "https://oze.example.com/login" [])).page.findFormAttrs
          [("id", "auth_form")] = some f →
      ∃ r2, (_oze_ent t "alice" p "https://oze.example.com/login").2 =
          [getReq "https://oze.example.com/login" [], r2] ∧
        dictGet r2.data "username" = some (some "alice@oze.example.com")) ∧
    (∀ (t : Transport) (u p url : String) (f : FormTag), url ≠ "" →
      pyIn (urlparse_netloc url) u = false →
      (t (getReq url [])).page.findFormAttrs [("id", "auth_form")] = some f →
      ∃ r2, (_oze_ent t u p url).2 = [getReq url [], r2] ∧
        dictGet r2.data "username" = some (some (u ++ "@" ++ urlparse_netloc url))) ∧
    (∀ (t : Transport) (u p url : String) (f : FormTag), url ≠ "" →
      pyIn (urlparse_netloc url) u = true →
      (t (getReq url [])).page.findFormAttrs [("id", "auth_form")] = some f →
      ∃ r2, (_oze_ent t u p url).2 = [getReq url [], r2] ∧
        dictGet r2.data "username" = some (some u)) := by
  have husr : ∀ (uu p : String) (f : FormTag),
      dictGet (overlayPayload f uu p) "username" = some (some uu) := by
    intro uu p f
    unfold overlayPayload
    rw [dictGet_dictSet, if_neg (by decide), dictGet_dictSet, if_pos rfl]
  refine ⟨?_, ?_, ?_⟩
  · intro t p f hf
    rw [oze_run t "alice" p "https://oze.example.com/login" f (by decide) hf]
    refine ⟨_, rfl, ?_⟩
    rw [if_neg (by decide)]
    have heq : ("alice" ++ "@" ++ urlparse_netloc "https://oze.example.com/login") =
        "alice@oze.example.com" := by decide
    simp only [postReq]
    rw [heq, husr]
  · intro t u p url f hurl hpy hf
    rw [oze_run t u p url f hurl hf]
    refine ⟨_, rfl, ?_⟩
    rw [if_neg (by simp [hpy])]
    simp only [postReq]
    rw [husr]
  · intro t u p url f hurl hpy hf
    rw [oze_run t u p url f hurl hf]
    refine ⟨_, rfl, ?_⟩
    rw [if_pos (by simp [hpy])]
    simp only [postReq]
    rw [husr]

/-- Witness for C6: with a transport serving `ozePage`, username `"alice"`
is submitted as `"alice@oze.example.com"`, and the already-suffixed
username `"alice@oze.example.com"` is submitted unchanged. -/
theorem oze_username_suffix_witness :
    (∃ r2, (_oze_ent ozeT "alice" "pw" "https://oze.example.com/login").2 =
        [getReq "https://oze.example.com/login" [], r2] ∧
      dictGet r2.data "username" = some (some "alice@oze.example.com")) ∧
    (∃ r2, (_oze_ent ozeT "alice@oze.example.com" "pw" "https://oze.example.com/login").2 =
        [getReq "https://oze.example.com/login" [], r2] ∧
      dictGet r2.data "username" = some (some "alice@oze.example.com")) :=
  ⟨oze_username_suffix.1 ozeT "pw" ozeForm (by decide),
    oze_username_suffix.2.2 ozeT "alice@oze.example.com" "pw"
      "https://oze.example.com/login" ozeForm (by decide) (by decide) (by decide)⟩

theorem overlayPayload_spec (f : FormTag) (u p : String)
    (hnd : (f.inputs.map InputTag.name).Nodup) :
    (∀ i ∈ f.inputs, i.name ≠ "username" → i.name ≠ "password" →
      dictGet (overlayPayload f u p) i.name = some i.value) ∧
    dictGet (overlayPayload f u p) "username" = some (some u) ∧
    dictGet (overlayPayload f u p) "password" = some (some p) ∧
    (∀ k, (dictGet (overlayPayload f u p) k).isSome = true →
      k ∈ f.inputs.map InputTag.name ∨ k = "username" ∨ k = "password") := by
  unfold overlayPayload
  refine ⟨?_, ?_, ?_, ?_⟩
  · intro i hi hu hp
    rw [dictGet_dictSet, if_neg hp, dictGet_dictSet, if_neg hu]
    exact dictGet_buildPayload_mem f.inputs [] i hi hnd
  · rw [dictGet_dictSet, if_neg (by decide), dictGet_dictSet, if_pos rfl]
  · rw [dictGet_dictSet, if_pos rfl]
  · intro k hk
    rcases dictGet_dictSet_isSome _ _ _ _ hk with rfl | hk2
    · exact Or.inr (Or.inr rfl)
    · rcases dictGet_dictSet_isSome _ _ _ _ hk2 with rfl | hk3
      · exact Or.inr (Or.inl rfl)
      · rcases dictGet_buildPayload_isSome _ _ _ hk3 with hmem | habs
        · exact Or.inl hmem
        · rw [dictGet_nil] at habs
          cases habs

/-- C7: in `_cas` and `_simple_auth`, when the looked-up form is found
(and its input names are distinct), the submitted payload contains every
hidden input's name/value pair from the discovered form, the
`username`/`password` fields are overlaid (credentials win over
same-named form inputs), and no field beyond the form's inputs plus
`username`/`password` is present. -/
theorem cas_simple_auth_payload :
    (∀ (t : Transport) (u p url : String) (f : FormTag), url ≠ "" →
      (t (getReq url [])).page.findFormAttrs [("class", "cas__login-form")] = some f →
      (f.inputs.map InputTag.name).Nodup →
      ∃ r2, (_cas t u p url).2 = [getReq url [], r2] ∧
        (∀ i ∈ f.inputs, i.typ = some "hidden" → i.name ≠ "username" →
          i.name ≠ "password" → dictGet r2.data i.name = some i.value) ∧
        dictGet r2.data "username" = some (some u) ∧
        dictGet r2.data "password" = some (some p) ∧
        (∀ k, (dictGet r2.data k).isSome = true →
          k ∈ f.inputs.map InputTag.name ∨ k = "username" ∨ k = "password")) ∧
    (∀ (t : Transport) (u p url : String) (fa : List (String × String)) (f : FormTag),
      url ≠ "" →
      (t (getReq url [])).page.findFormAttrs fa = some f →
      (f.inputs.map InputTag.name).Nodup →
      ∃ r2, (_simple_auth t u p url fa).2 = [getReq url [], r2] ∧
        (∀ i ∈ f.inputs, i.typ = some "hidden" → i.name ≠ "username" →
          i.name ≠ "password" → dictGet r2.data i.name = some i.value) ∧
        dictGet r2.data "username" = some (some u) ∧
        dictGet r2.data "password" = some (some p) ∧
        (∀ k, (dictGet r2.data k).isSome = true →
          k ∈ f.inputs.map InputTag.name ∨ k = "username" ∨ k = "password")) := by
  constructor
  · intro t u p url f hurl hf hnd
    rw [cas_run t u p url f hurl hf]
    refine ⟨_, rfl, ?_⟩
    simp only [postReq]
    obtain ⟨h1, h2, h3, h4⟩ := overlayPayload_spec f u p hnd
    exact ⟨fun i hi _ hu hp => h1 i hi hu hp, h2, h3, h4⟩
  · intro t u p url fa f hurl hf hnd
    rw [simple_auth_run t u p url fa f hurl hf]
    refine ⟨_, rfl, ?_⟩
    simp only [postReq]
    obtain ⟨h1, h2, h3, h4⟩ := overlayPayload_spec f u p hnd
    exact ⟨fun i hi _ hu hp => h1 i hi hu hp, h2, h3, h4⟩

/-- Witness for C7 at `casT`, whose page carries `casForm` (class
`cas__login-form`) and `idForm` (id `loginForm`). -/
theorem cas_simple_auth_payload_witness :
    (∃ r2, (_cas casT "alice" "pw" "https://ent.example.fr/cas").2 =
        [getReq "https://ent.example.fr/cas" [], r2] ∧
      (∀ i ∈ casForm.inputs, i.typ = some "hidden" → i.name ≠ "username" →
        i.name ≠ "password" → dictGet r2.data i.name = some i.value) ∧
      dictGet r2.data "username" = some (some "alice") ∧
      dictGet r2.data "password" = some (some "pw") ∧
      (∀ k, (dictGet r2.data k).isSome = true →
        k ∈ casForm.inputs.map InputTag.name ∨ k = "username" ∨ k = "password")) ∧
    (∃ r2, (_simple_auth casT "alice" "pw" "https://ent.example.fr/simple"
        [("id", "loginForm")]).2 = [getReq "https://ent.example.fr/simple" [], r2] ∧
      (∀ i ∈ idForm.inputs, i.typ = some "hidden" → i.name ≠ "username" →
        i.name ≠ "password" → dictGet r2.data i.name = some i.value) ∧
      dictGet r2.data "username" = some (some "alice") ∧
      dictGet r2.data "password" = some (some "pw") ∧
      (∀ k, (dictGet r2.data k).isSome = true →
        k ∈ idForm.inputs.map InputTag.name ∨ k = "username" ∨ k = "password")) :=
  ⟨cas_simple_auth_payload.1 casT "alice" "pw" "https://ent.example.fr/cas" casForm
      (by decide) (by decide) (by decide),
    cas_simple_auth_payload.2 casT "alice" "pw" "https://ent.example.fr/simple"
      [("id", "loginForm")] idForm (by decide) (by decide) (by decide)⟩

/-- C8: a malformed fetched page — the expected form or required input
absent — makes each scraping component end in an uncaught lookup failure
(`TypeError`, `KeyError` or `AttributeError`), never caught or translated
into the module's `ENTLoginError`, and with no recovery request issued
after the failure. -/
theorem malformed_page_failure_uncaught :
    (∀ (t : Transport) (s : Session) (u p url : String) (i : InputTag) (v : String),
      url ≠ "" →
      (t (postReq url (eduPayload u p))).page.findInput "SAMLResponse" = some i →
      i.value = some v →
      (t (postReq url (eduPayload u p))).page.findInput "RelayState" = none →
      (t (postReq url (eduPayload u p))).page.findForm = none →
      ∃ e, _educonnect t s u p url = (.error e, [postReq url (eduPayload u p)]) ∧
        e.isLookupFailure = true) ∧
    (∀ (t : Transport) (u p url : String), url ≠ "" →
      (t (getReq url [])).page.findInput "RelayState" = none →
      ∃ e, _cas_edu t u p url = (.error e, [getReq url []]) ∧
        e.isLookupFailure = true) ∧
    (∀ (t : Transport) (u p url : String), url ≠ "" →
      (t (getReq url [])).page.findFormAttrs [("class", "cas__login-form")] = none →
      ∃ e, _cas t u p url = (.error e, [getReq url []]) ∧
        e.isLookupFailure = true) ∧
    (∀ (t : Transport) (u p url : String), url ≠ "" →
      (t (getReq url [])).page.findFormAttrs [("id", "auth_form")] = none →
      ∃ e, _oze_ent t u p url = (.error e, [getReq url []]) ∧
        e.isLookupFailure = true) ∧
    (∀ (t : Transport) (u p url : String) (fa : List (String × String)), url ≠ "" →
      (t (getReq url [])).page.findFormAttrs fa = none →
      ∃ e, _simple_auth t u p url fa = (.error e, [getReq url []]) ∧
        e.isLookupFailure = true) := by
  refine ⟨?_, ?_, ?_, ?_, ?_⟩
  · intro t s u p url i v hurl hi hv hr hform
    refine ⟨.typeError "NoneType object is not subscriptable", ?_, rfl⟩
    unfold _educonnect
    rw [if_neg hurl]
    simp only [eduPayload] at hi hr hform
    simp only [Session.doRequest, hi, hv, hr, hform]
    rfl
  · intro t u p url hurl hr
    refine ⟨.typeError "NoneType object is not subscriptable", ?_, rfl⟩
    unfold _cas_edu
    rw [if_neg hurl]
    simp only [Session.doRequest, hr]
  · intro t u p url hurl hform
    refine ⟨.attributeError "NoneType object has no attribute findAll", ?_, rfl⟩
    unfold _cas
    rw [if_neg hurl]
    simp only [Session.doRequest, hform]
  · intro t u p url hurl hform
    refine ⟨.attributeError "NoneType object has no attribute findAll", ?_, rfl⟩
    unfold _oze_ent
    rw [if_neg hurl]
    simp only [Session.doRequest, hform]
  · intro t u p url fa hurl hform
    refine ⟨.attributeError "NoneType object has no attribute findAll", ?_, rfl⟩
    unfold _simple_auth
    rw [if_neg hurl]
    simp only [Session.doRequest, hform]

/-- Witness for C8: concrete malformed pages (`samlNoFormPage` for the
relay, the empty page for the others) produce lookup failures. -/
theorem malformed_page_failure_uncaught_witness :
    (∃ e, _educonnect samlNoFormT ⟨[]⟩ "u" "p" "https://edu.example/login" =
        (.error e, [postReq "https://edu.example/login" (eduPayload "u" "p")]) ∧
      e.isLookupFailure = true) ∧
    (∃ e, _cas_edu emptyT "u" "p" "https://ent.example.fr/a" =
        (.error e, [getReq "https://ent.example.fr/a" []]) ∧
      e.isLookupFailure = true) ∧
    (∃ e, _cas emptyT "u" "p" "https://ent.example.fr/b" =
        (.error e, [getReq "https://ent.example.fr/b" []]) ∧
      e.isLookupFailure = true) ∧
    (∃ e, _oze_ent emptyT "u" "p" "https://ent.example.fr/c" =
        (.error e, [getReq "https://ent.example.fr/c" []]) ∧
      e.isLookupFailure = true) ∧
    (∃ e, _simple_auth emptyT "u" "p" "https://ent.example.fr/d" [("id", "login")] =
        (.error e, [getReq "https://ent.example.fr/d" []]) ∧
      e.isLookupFailure = true) :=
  ⟨malformed_page_failure_uncaught.1 samlNoFormT ⟨[]⟩ "u" "p" "https://edu.example/login"
      ⟨"SAMLResponse", some "SR1", some "hidden"⟩ "SR1"
      (by decide) (by decide) (by decide) (by decide) (by decide),
    malformed_page_failure_uncaught.2.1 emptyT "u" "p" "https://ent.example.fr/a"
      (by decide) (by decide),
    malformed_page_failure_uncaught.2.2.1 emptyT "u" "p" "https://ent.example.fr/b"
      (by decide) (by decide),
    malformed_page_failure_uncaught.2.2.2.1 emptyT "u" "p" "https://ent.example.fr/c"
      (by decide) (by decide),
    malformed_page_failure_uncaught.2.2.2.2 emptyT "u" "p" "https://ent.example.fr/d"
      [("id", "login")] (by decide) (by decide)⟩

/-- C10 (implicit): `_cas`, `_oze_ent` and `_simple_auth` POST the
credential payload to the GET response's final URL (`response.url`), not
to the discovered form's declared `action` attribute; only the EduConnect
relay posts to a form's `action` URL. -/
theorem post_target_is_get_final_url :
    (∀ (t : Transport) (u p url : String) (f : FormTag), url ≠ "" →
      (t (getReq url [])).page.findFormAttrs [("class", "cas__login-form")] = some f →
      ∃ r2, (_cas t u p url).2 = [getReq url [], r2] ∧
        r2.url = (t (getReq url [])).url) ∧
    (∀ (t : Transport) (u p url : String) (f : FormTag), url ≠ "" →
      (t (getReq url [])).page.findFormAttrs [("id", "auth_form")] = some f →
      ∃ r2, (_oze_ent t u p url).2 = [getReq url [], r2] ∧
        r2.url = (t (getReq url [])).url) ∧
    (∀ (t : Transport) (u p url : String) (fa : List (String × String)) (f : FormTag),
      url ≠ "" →
      (t (getReq url [])).page.findFormAttrs fa = some f →
      ∃ r2, (_simple_auth t u p url fa).2 = [getReq url [], r2] ∧
        r2.url = (t (getReq url [])).url) ∧
    (∀ (t : Transport) (s : Session) (u p url : String) (i : InputTag) (v : String)
      (f : FormTag) (a : String), url ≠ "" →
      (t (postReq url (eduPayload u p))).page.findInput "SAMLResponse" = some i →
      i.value = some v →
      (t (postReq url (eduPayload u p))).page.findInput "RelayState" = none →
      (t (postReq url (eduPayload u p))).page.findForm = some f →
      f.action = some a →
      ∃ r2, (_educonnect t s u p url).2 = [postReq url (eduPayload u p), r2] ∧
        r2.url = a) := by
  refine ⟨?_, ?_, ?_, ?_⟩
  · intro t u p url f hurl hf
    rw [cas_run t u p url f hurl hf]
    exact ⟨_, rfl, rfl⟩
  · intro t u p url f hurl hf
    rw [oze_run t u p url f hurl hf]
    exact ⟨_, rfl, rfl⟩
  · intro t u p url fa f hurl hf
    rw [simple_auth_run t u p url fa f hurl hf]
    exact ⟨_, rfl, rfl⟩
  · intro t s u p url i v f a hurl hi hv hr hf ha
    rw [educonnect_run_relay_no_rs t s u p url i v f a hurl hi hv hr hf ha]
    exact ⟨_, rfl, rfl⟩

/-- Witness for C10: with `casT`/`ozeT` the follow-up POST goes to the
final GET URL (which differs from the forms' declared `action` URLs),
while with `noRelayT` the relay's follow-up POST goes to the form's
declared `action` URL. -/
theorem post_target_is_get_final_url_witness :
    (∃ r2, (_cas casT "alice" "pw" "https://ent.example.fr/cas").2 =
        [getReq "https://ent.example.fr/cas" [], r2] ∧
      r2.url = (casT (getReq "https://ent.example.fr/cas" [])).url) ∧
    (∃ r2, (_oze_ent ozeT "alice" "pw" "https://oze.example.com/login").2 =
        [getReq "https://oze.example.com/login" [], r2] ∧
      r2.url = (ozeT (getReq "https://oze.example.com/login" [])).url) ∧
    (∃ r2, (_simple_auth casT "alice" "pw" "https://ent.example.fr/simple"
        [("id", "loginForm")]).2 = [getReq "https://ent.example.fr/simple" [], r2] ∧
      r2.url = (casT (getReq "https://ent.example.fr/simple" [])).url) ∧
    (∃ r2, (_educonnect noRelayT ⟨[]⟩ "u" "pw" "https://edu.example/login").2 =
        [postReq "https://edu.example/login" (eduPayload "u" "pw"), r2] ∧
      r2.url = "https://sp.example/acs2") :=
  ⟨(post_target_is_get_final_url.1 casT "alice" "pw" "https://ent.example.fr/cas"
      casForm (by decide) (by decide)),
    (post_target_is_get_final_url.2.1 ozeT "alice" "pw" "https://oze.example.com/login"
      ozeForm (by decide) (by decide)),
    (post_target_is_get_final_url.2.2.1 casT "alice" "pw" "https://ent.example.fr/simple"
      [("id", "loginForm")] idForm (by decide) (by decide)),
    (post_target_is_get_final_url.2.2.2 noRelayT ⟨[]⟩ "u" "pw" "https://edu.example/login"
      ⟨"SAMLResponse", some "SR2", some "hidden"⟩ "SR2" noRelayForm "https://sp.example/acs2"
      (by decide) (by decide) (by decide) (by decide) (by decide) (by decide))⟩

end GenericFunc
